import Mathlib

/-!
Verification of the single-file Streamlit RAG chat application `UserApp.py`
(repository `Indain_constitution_AI_Agent`).

The application is a thin front-end over three remote services (a Gemini
embedding/LLM client and a Pinecone vector store).  We embed the code
shallowly:

* pure helpers (`get_response_text`, `create_query_engine`, the prompt
  template constant) are translated directly;
* the remote services are opaque oracles (`Ext`, `PipeOracle`): each remote
  constructor or call is a function field returning `Except String _`,
  standing for "returned normally" / "raised an exception with message";
* one execution of `main` on a Streamlit rerun is the step function
  `runMain` over the session state (`st.session_state`), and a whole user
  session is a fold of that step over the sequence of chat inputs;
* Python `str(x)` on an `Optional[str]` is `pyStr` (`None` prints as
  `"None"`);
* the interior of the llama-index query engine (embed → search →
  synthesize) is not part of this repository, so it is modelled from the
  spec as `answer`, instrumented with an event trace.
-/

namespace UserApp

/-! ### Data model -/

/-- One entry of `st.session_state.chat_history`:
a Python dict `{"role": ..., "content": ...}`. -/
structure ChatTurn where
  role : String
  content : String
deriving DecidableEq, Repr

/-- Python `str` applied to an `Optional[str]` value: `str(None)` is the
string `"None"`, `str(s)` of a string is `s` itself. -/
def pyStr : Option String → String
  | none => "None"
  | some s => s

/-- The llama-index response object, as far as `UserApp.py` touches it:
it reads the single attribute `response`, whose value is an optional
string (the model may produce no text). -/
structure LIResponse where
  response : Option String

/-- `get_response_text(response)` from `UserApp.py` (lines 67–69):
`return str(response.response)`. -/
def get_response_text (response : LIResponse) : String :=
  pyStr response.response

/-! ### Remote-service handles

The constructed clients are opaque handles; the code never inspects them,
it only passes them along.  A `Nat` handle keeps the types distinct and
inhabited. -/

structure Llm where
  handle : Nat

structure EmbedModel where
  handle : Nat

structure PineconeClient where
  handle : Nat

structure PineconeIndex where
  handle : Nat

structure VectorStore where
  pinecone_index : PineconeIndex

/-- `VectorStoreIndex.from_vector_store(vector_store)`: a local wrapper
around the vector-store handle. -/
structure Index where
  vector_store : VectorStore

/-- `PromptType.QUESTION_ANSWER` (the only variant the code uses). -/
inductive PromptType where
  | QUESTION_ANSWER
deriving DecidableEq, Repr

/-- `PromptTemplate(template, prompt_type=...)`. -/
structure PromptTemplate where
  template : String
  prompt_type : PromptType

/-! ### Fixed configuration constants (from the source text) -/

def gemini_model_id : String := "models/gemini-1.5-pro-002"

def embedding_model_id : String := "models/embedding-001"

def pinecone_index_name : String := "constitution"

/-- `DEFAULT_TEXT_QA_PROMPT_TMPL` from `create_query_engine`
(`UserApp.py` lines 47–57); Python's adjacent string literals are
concatenated. -/
def DEFAULT_TEXT_QA_PROMPT_TMPL : String :=
  "Context information is below.\n" ++
  "---------------------\n" ++
  "{context_str}\n" ++
  "---------------------\n" ++
  "Given the context information and not prior knowledge, " ++
  "Only answer questions that you can answer based on the context. " ++
  "Answer the query.\n" ++
  "Query: {query_str}\n" ++
  "Answer: "

/-- `DEFAULT_TEXT_QA_PROMPT` from `create_query_engine` (lines 58–60). -/
def DEFAULT_TEXT_QA_PROMPT : PromptTemplate :=
  { template := DEFAULT_TEXT_QA_PROMPT_TMPL
    prompt_type := PromptType.QUESTION_ANSWER }

/-- The query engine returned by `index.as_query_engine(...)`, as far as
the code configures it: the QA prompt template, the retrieval `top_k`,
and the index it queries.  Its runtime behaviour lives in the external
library and is modelled by oracles. -/
structure QueryEngine where
  text_qa_template : PromptTemplate
  similarity_top_k : Nat
  index : Index

/-- `create_query_engine(index)` from `UserApp.py` (lines 46–65). -/
def create_query_engine (index : Index) : QueryEngine :=
  { text_qa_template := DEFAULT_TEXT_QA_PROMPT
    similarity_top_k := 7
    index := index }

/-! ### External world oracle for `initialize_chatbot` and per-query calls

Each field is one remote constructor or call the code performs;
`.error msg` means that call raised an exception with message `msg`. -/

structure Ext where
  /-- `os.environ[...]` lookup: `none` means the variable is unset. -/
  env : String → Option String
  /-- `Gemini(api_key=..., model=...)`. -/
  geminiInit : String → String → Except String Llm
  /-- `GeminiEmbedding(model_name=...)`. -/
  geminiEmbedInit : String → Except String EmbedModel
  /-- `Pinecone(api_key=...)`. -/
  pineconeInit : String → Except String PineconeClient
  /-- `pinecone_client.Index(name)`. -/
  pineconeIndexOf : PineconeClient → String → Except String PineconeIndex
  /-- `PineconeVectorStore(pinecone_index=...)`. -/
  vectorStoreInit : PineconeIndex → Except String VectorStore
  /-- `st.session_state.query_engine.query(q)`: the whole per-query
  pipeline invocation of the external engine. -/
  queryResult : QueryEngine → String → Except String LIResponse

/-- `os.environ[key]`: raises `KeyError` when the variable is unset. -/
def environ_get (env : String → Option String) (key : String) :
    Except String String :=
  match env key with
  | some v => Except.ok v
  | none => Except.error ("KeyError: " ++ key)

/-- `initialize_chatbot()` from `UserApp.py` (lines 23–44): constructs the
LLM client, the embedding client, the Pinecone client, the index handle
and the vector store, in source order; its `except` clause logs and
re-raises, so any failure propagates to the caller unchanged. -/
def initialize_chatbot (x : Ext) : Except String Index := do
  let google_key ← environ_get x.env "GOOGLE_API_KEY"
  let _llm ← x.geminiInit google_key gemini_model_id
  let _embed_model ← x.geminiEmbedInit embedding_model_id
  let pinecone_key ← environ_get x.env "PINECONE_API_KEY"
  let pinecone_client ← x.pineconeInit pinecone_key
  let pinecone_index ← x.pineconeIndexOf pinecone_client pinecone_index_name
  let vector_store ← x.vectorStoreInit pinecone_index
  pure { vector_store := vector_store }

/-! ### One Streamlit rerun of `main` -/

/-- `st.session_state` as `main` uses it: the chat history list
(initialised to `[]` at lines 20–21) and the cached query engine
(absent until initialization succeeds). -/
structure SessionState where
  chat_history : List ChatTurn
  query_engine : Option QueryEngine

/-- What one rerun of `main` leaves behind: the new session state and the
messages rendered for this run (the assistant answer, the inner
`st.error` of the per-query `except`, and the outer `st.error` of the
system-level `except`). -/
structure RunResult where
  state : SessionState
  shownAnswer : Option String
  shownQueryError : Option String
  shownSystemError : Option String

/-- The chat-input section of `main` (`UserApp.py` lines 99–118), run with
an initialized engine.  `input = none` models no submission; the walrus
guard `if query := st.chat_input(...)` only enters the branch for a
truthy (non-empty) string.  The inner `try/except` converts a raising
`query` call into `st.error(...)` and leaves the history untouched;
on success the history is extended with the user/assistant pair. -/
def runChat (x : Ext) (eng : QueryEngine) (hist : List ChatTurn)
    (input : Option String) : RunResult :=
  match input with
  | none => ⟨⟨hist, some eng⟩, none, none, none⟩
  | some q =>
    if q = "" then ⟨⟨hist, some eng⟩, none, none, none⟩
    else
      match x.queryResult eng q with
      | Except.ok resp =>
        let response_text := get_response_text resp
        ⟨⟨hist ++ [⟨"user", q⟩, ⟨"assistant", response_text⟩], some eng⟩,
          some response_text, none, none⟩
      | Except.error e =>
        ⟨⟨hist, some eng⟩, none,
          some ("Error processing question: " ++ e), none⟩

/-- One rerun of `main` (`UserApp.py` lines 71–122).  If no engine is
cached, initialization runs inside the outer `try`; a raising
`initialize_chatbot` skips the whole chat section and lands in the outer
`except` (`st.error("System Error: ...")`), leaving the state as it was.
Otherwise the chat section runs with the (new or cached) engine. -/
def runMain (x : Ext) (s : SessionState) (input : Option String) :
    RunResult :=
  match s.query_engine with
  | some eng => runChat x eng s.chat_history input
  | none =>
    match initialize_chatbot x with
    | Except.error e =>
      ⟨s, none, none, some ("System Error: " ++ e)⟩
    | Except.ok index =>
      runChat x (create_query_engine index) s.chat_history input

/-- A whole user session: starting from the fresh session state of lines
20–21 (`chat_history = []`, no engine), fold `runMain` over the sequence
of chat inputs, one per rerun. -/
def runSession (x : Ext) (inputs : List (Option String)) : SessionState :=
  inputs.foldl (fun s i => (runMain x s i).state) ⟨[], none⟩

/-! ### The Chat Session contract (append / history)

`main` touches the history only through Python-list append order:
iteration at lines 89–96 reads it front to back, `extend` at lines
111–114 appends at the back. -/

/-- `append(turn)`: Python `list.append` / one element of `extend`. -/
def append (hist : List ChatTurn) (turn : ChatTurn) : List ChatTurn :=
  hist ++ [turn]

/-- `history()`: reading the list back, front to back. -/
def history (hist : List ChatTurn) : List ChatTurn := hist

/-- Appending a sequence of turns one by one. -/
def appendAll (hist : List ChatTurn) (turns : List ChatTurn) :
    List ChatTurn :=
  turns.foldl append hist

/-! ### Substring and rendering helpers (kernel-computable) -/

/-- `startsWithL pat s`: `pat` is an initial segment of `s`. -/
def startsWithL : List Char → List Char → Bool
  | [], _ => true
  | _ :: _, [] => false
  | a :: as, b :: bs => a == b && startsWithL as bs

/-- `occursIn pat s`: `pat` occurs as a contiguous run of `s`. -/
def occursIn (pat : List Char) : List Char → Bool
  | [] => startsWithL pat []
  | c :: rest => startsWithL pat (c :: rest) || occursIn pat rest

/-- `hasSub s pat`: Python `pat in s` on strings. -/
def hasSub (s pat : String) : Bool :=
  occursIn pat.data s.data

/-- Fuel-bounded replacement of every occurrence of `pat` by `rep`;
with `fuel = s.length` it replaces all occurrences left to right. -/
def replaceFuel (pat rep : List Char) : Nat → List Char → List Char
  | _, [] => []
  | 0, s => s
  | fuel + 1, c :: rest =>
    if pat ≠ [] ∧ startsWithL pat (c :: rest) = true then
      rep ++ replaceFuel pat rep fuel ((c :: rest).drop pat.length)
    else
      c :: replaceFuel pat rep fuel rest

/-- Replace every occurrence of `pat` in `s` by `rep` (Python
`str.replace` as used for prompt-placeholder substitution). -/
def replaceSub (s pat rep : String) : String :=
  ⟨replaceFuel pat.data rep.data s.data.length s.data⟩

/-! ### The Query Pipeline, modelled from the spec

The interior of `index.as_query_engine(...).query(q)` — embed the query,
search the vector store, render the prompt, call the language model — is
llama-index library code, not part of this repository; `UserApp.py` only
configures it (template, `similarity_top_k = 7`).  The definitions below
are therefore modelled from the spec (§4.1–§4.4), instrumented with an
event trace so that ordering and configuration claims are statable. -/

/-- A retrieved chunk (spec §3): its text and similarity score (score and
metadata are never inspected by this layer). -/
structure RetrievedChunk where
  text : String
  similarity_score : Rat

/-- Modelled from the spec: the three remote operations behind one
pipeline invocation (embedding client §4.1, vector store client §4.2,
the language-model completion inside the answer synthesizer §4.3). -/
structure PipeOracle where
  embedR : String → Except String (List Rat)
  searchR : List Rat → Nat → Except String (List RetrievedChunk)
  llmComplete : String → Except String String

/-- The steps a pipeline invocation performs, in the order performed. -/
inductive PipeEvent where
  | validate (q : String)
  | embed (q : String)
  | search (k : Nat)
  | synthesize (prompt : String)
deriving DecidableEq, Repr

/-- The `Answer` record of spec §3. -/
structure Answer where
  text : String
deriving DecidableEq, Repr

/-- Modelled from the spec (§4.3): render the fixed QA template by
substituting the context block for `{context_str}` and the query for
`{query_str}`. -/
def renderPrompt (tmpl ctx q : String) : String :=
  replaceSub (replaceSub tmpl "{context_str}" ctx) "{query_str}" q

/-- Modelled from the spec (§4.3): the context block is the chunk texts
concatenated in the order received. -/
def contextBlock (chunks : List RetrievedChunk) : String :=
  String.intercalate "\n\n" (chunks.map RetrievedChunk.text)

/-- Modelled from the spec (§4.4): the Query Pipeline's
`answer(query)` — validate the query is non-empty, embed it, search the
vector store with the engine's `similarity_top_k`, render the fixed
template and call the language model; any remote failure propagates.
Returns the event trace alongside the result. -/
def answer (o : PipeOracle) (eng : QueryEngine) (q : String) :
    List PipeEvent × Except String Answer :=
  if q = "" then
    ([PipeEvent.validate q], Except.error "empty query")
  else
    match o.embedR q with
    | Except.error e =>
      ([PipeEvent.validate q, PipeEvent.embed q], Except.error e)
    | Except.ok vec =>
      match o.searchR vec eng.similarity_top_k with
      | Except.error e =>
        ([PipeEvent.validate q, PipeEvent.embed q,
          PipeEvent.search eng.similarity_top_k], Except.error e)
      | Except.ok chunks =>
        let prompt :=
          renderPrompt eng.text_qa_template.template (contextBlock chunks) q
        match o.llmComplete prompt with
        | Except.error e =>
          ([PipeEvent.validate q, PipeEvent.embed q,
            PipeEvent.search eng.similarity_top_k,
            PipeEvent.synthesize prompt], Except.error e)
        | Except.ok t =>
          ([PipeEvent.validate q, PipeEvent.embed q,
            PipeEvent.search eng.similarity_top_k,
            PipeEvent.synthesize prompt], Except.ok ⟨t⟩)

/-- The `k` of every `search` event in a trace. -/
def searchKs (trace : List PipeEvent) : List Nat :=
  trace.filterMap fun e =>
    match e with
    | PipeEvent.search k => some k
    | _ => none

/-! ### History-shape helpers for the pairing invariant -/

/-- The history is a sequence of complete user/assistant pairs. -/
def wellPaired : List ChatTurn → Bool
  | [] => true
  | [_] => false
  | t1 :: t2 :: rest =>
    t1.role == "user" && t2.role == "assistant" && wellPaired rest

/-- Starting at position `i`, roles follow the strict pattern
user (even positions) / assistant (odd positions). -/
def rolesPattern : Nat → List ChatTurn → Bool
  | _, [] => true
  | i, t :: rest =>
    (t.role == if i % 2 = 0 then "user" else "assistant") &&
      rolesPattern (i + 1) rest

/-! ### Concrete instances used by witnesses -/

/-- A concrete index handle. -/
def idxW : Index := ⟨⟨⟨0⟩⟩⟩

/-- The engine the app builds over `idxW`. -/
def engW : QueryEngine := create_query_engine idxW

/-- A response object carrying the text `"ans"`. -/
def respW : LIResponse := ⟨some "ans"⟩

/-- A world in which every remote call succeeds. -/
def extOk : Ext where
  env := fun _ => some "key"
  geminiInit := fun _ _ => Except.ok ⟨0⟩
  geminiEmbedInit := fun _ => Except.ok ⟨0⟩
  pineconeInit := fun _ => Except.ok ⟨0⟩
  pineconeIndexOf := fun _ _ => Except.ok ⟨0⟩
  vectorStoreInit := fun p => Except.ok ⟨p⟩
  queryResult := fun _ _ => Except.ok respW

/-- A world in which the per-query pipeline call raises `"boom"`. -/
def extQueryFail : Ext :=
  { extOk with queryResult := fun _ _ => Except.error "boom" }

/-- A world in which constructing the embedding client raises. -/
def extInitFail : Ext :=
  { extOk with geminiEmbedInit := fun _ => Except.error "no embed" }

/-- A session state with an initialized engine and empty history. -/
def sW : SessionState := ⟨[], some engW⟩

/-- A pipeline oracle in which every remote step succeeds. -/
def oW : PipeOracle where
  embedR := fun _ => Except.ok []
  searchR := fun _ _ => Except.ok []
  llmComplete := fun _ => Except.ok "ans"

/-! ### Helper lemmas -/

/-- Folding `append` over a list of turns concatenates it at the back. -/
theorem appendAll_eq (hist turns : List ChatTurn) :
    appendAll hist turns = hist ++ turns := by
  induction turns generalizing hist with
  | nil => simp [appendAll]
  | cons t ts ih =>
    simp only [appendAll, List.foldl_cons] at *
    rw [ih, append]
    simp

/-! ### Claims -/

/-- C3: the chat session preserves strict insertion order — appending any
sequence of turns to the (initially empty) history and reading it back
yields exactly those turns, in append order, unchanged; and in general
appending extends an existing history at the back without touching it. -/
theorem claim_C3 :
    (∀ turns : List ChatTurn, history (appendAll [] turns) = turns)
    ∧ (∀ (hist turns : List ChatTurn),
        history (appendAll hist turns) = history hist ++ turns) := by
  constructor
  · intro turns
    simp [history, appendAll_eq]
  · intro hist turns
    simp [history, appendAll_eq]

/-- C10: `get_response_text` is total and always returns a string: when the
underlying `response` attribute is `None` it returns the non-empty string
`"None"`, and when it is a string it returns that string. -/
theorem claim_C10 :
    get_response_text ⟨none⟩ = "None"
    ∧ ("None" : String) ≠ ""
    ∧ ∀ s : String, get_response_text ⟨some s⟩ = s := by
  refine ⟨rfl, by decide, fun s => rfl⟩

/-- Every `search` event of a pipeline invocation carries the engine's
configured `similarity_top_k`. -/
theorem searchKs_all_top_k (o : PipeOracle) (eng : QueryEngine)
    (q : String) :
    ((searchKs (answer o eng q).1).all
      fun k => k == eng.similarity_top_k) = true := by
  by_cases hq : q = ""
  · simp [answer, hq, searchKs]
  · cases he : o.embedR q with
    | error e => simp [answer, hq, he, searchKs]
    | ok v =>
      cases hs : o.searchR v eng.similarity_top_k with
      | error e => simp [answer, hq, he, hs, searchKs]
      | ok chunks =>
        cases hl : o.llmComplete (renderPrompt
            eng.text_qa_template.template (contextBlock chunks) q) with
        | error e => simp [answer, hq, he, hs, hl, searchKs]
        | ok t => simp [answer, hq, he, hs, hl, searchKs]

/-- C4: every retrieval request uses the fixed `top_k` value 7 — the engine
is configured with `similarity_top_k = 7` for every index, and every
`search` event of any pipeline invocation carries `k = 7`, with no
per-request override. -/
theorem claim_C4 (o : PipeOracle) (index : Index) (q : String) :
    (create_query_engine index).similarity_top_k = 7
    ∧ ((searchKs (answer o (create_query_engine index) q).1).all
        fun k => k == 7) = true := by
  refine ⟨rfl, ?_⟩
  have h := searchKs_all_top_k o (create_query_engine index) q
  simpa [create_query_engine] using h

/-- C1: for every non-empty query submitted through the chat input, the
pipeline invocation either displays a (non-null) answer and no error, or
displays a query-boundary error and no answer — it never silently
completes with neither. -/
theorem claim_C1 (x : Ext) (eng : QueryEngine) (hist : List ChatTurn)
    (q : String) (hq : q ≠ "") :
    ((runChat x eng hist (some q)).shownAnswer.isSome = true
      ∧ (runChat x eng hist (some q)).shownQueryError = none)
    ∨ ((runChat x eng hist (some q)).shownQueryError.isSome = true
      ∧ (runChat x eng hist (some q)).shownAnswer = none) := by
  cases hr : x.queryResult eng q with
  | ok resp => left; simp [runChat, hq, hr]
  | error e => right; simp [runChat, hq, hr]

/-- Witness for C1 at a concrete successful world. -/
theorem claim_C1_witness :
    ((runChat extOk engW [] (some "hi")).shownAnswer.isSome = true
      ∧ (runChat extOk engW [] (some "hi")).shownQueryError = none)
    ∨ ((runChat extOk engW [] (some "hi")).shownQueryError.isSome = true
      ∧ (runChat extOk engW [] (some "hi")).shownAnswer = none) :=
  claim_C1 extOk engW [] "hi" (by decide)

/-- C2: a raising per-query pipeline call is caught at the invocation
boundary and converted into the non-fatal user-visible message; the chat
history and the engine handle are untouched, and a subsequent successful
query on the resulting state is processed normally. -/
theorem claim_C2 (x : Ext) (s : SessionState) (eng : QueryEngine)
    (q e : String) (hE : s.query_engine = some eng) (hq : q ≠ "")
    (herr : x.queryResult eng q = Except.error e) :
    (runMain x s (some q)).shownQueryError
      = some ("Error processing question: " ++ e)
    ∧ (runMain x s (some q)).shownSystemError = none
    ∧ (runMain x s (some q)).state.chat_history = s.chat_history
    ∧ (runMain x s (some q)).state.query_engine = some eng
    ∧ (∀ (x2 : Ext) (q2 : String) (resp : LIResponse), q2 ≠ "" →
        x2.queryResult eng q2 = Except.ok resp →
        (runMain x2 (runMain x s (some q)).state (some q2)).shownAnswer
          = some (get_response_text resp)
        ∧ (runMain x2 (runMain x s (some q)).state (some q2)).state.chat_history
          = s.chat_history
            ++ [⟨"user", q2⟩, ⟨"assistant", get_response_text resp⟩]) := by
  refine ⟨?_, ?_, ?_, ?_, ?_⟩
  · simp [runMain, hE, runChat, hq, herr]
  · simp [runMain, hE, runChat, hq, herr]
  · simp [runMain, hE, runChat, hq, herr]
  · simp [runMain, hE, runChat, hq, herr]
  · intro x2 q2 resp hq2 hok
    constructor
    · simp [runMain, hE, runChat, hq, herr, hq2, hok]
    · simp [runMain, hE, runChat, hq, herr, hq2, hok]

/-- Witness for C2: a failing query shows the boundary message, and a
following successful query on the same session state is answered. -/
theorem claim_C2_witness :
    (runMain extQueryFail sW (some "hi")).shownQueryError
      = some ("Error processing question: " ++ "boom")
    ∧ (runMain extOk (runMain extQueryFail sW (some "hi")).state
        (some "again")).shownAnswer = some (get_response_text respW) := by
  have h := claim_C2 extQueryFail sW engW "hi" "boom" rfl (by decide) rfl
  exact ⟨h.1, (h.2.2.2.2 extOk "again" respW (by decide) rfl).1⟩

/-- C8: query-failure atomicity of the chat history — if the pipeline call
raises, the history is exactly what it was before the query; a pair of
turns is recorded only when a response was produced. -/
theorem claim_C8 (x : Ext) (s : SessionState) (eng : QueryEngine)
    (q : String) (hE : s.query_engine = some eng) (hq : q ≠ "") :
    (∀ e, x.queryResult eng q = Except.error e →
      (runMain x s (some q)).state.chat_history = s.chat_history)
    ∧ (∀ resp, x.queryResult eng q = Except.ok resp →
      (runMain x s (some q)).state.chat_history
        = s.chat_history
          ++ [⟨"user", q⟩, ⟨"assistant", get_response_text resp⟩]) := by
  constructor
  · intro e herr
    simp [runMain, hE, runChat, hq, herr]
  · intro resp hok
    simp [runMain, hE, runChat, hq, hok]

/-- Witness for C8: with a raising pipeline call the history stays empty. -/
theorem claim_C8_witness :
    (runMain extQueryFail sW (some "hi")).state.chat_history
      = ([] : List ChatTurn) :=
  (claim_C8 extQueryFail sW engW "hi" rfl (by decide)).1 "boom" rfl

/-- C7: a raising `initialize_chatbot` is fatal to the run — the engine is
not created, the system-level error is shown, the chat section never runs
(no answer, no query-boundary message, history untouched), and nothing in
the run retries initialization. -/
theorem claim_C7 (x : Ext) (s : SessionState) (input : Option String)
    (e : String) (hNoEng : s.query_engine = none)
    (hfail : initialize_chatbot x = Except.error e) :
    (runMain x s input).state.query_engine = none
    ∧ (runMain x s input).shownSystemError = some ("System Error: " ++ e)
    ∧ (runMain x s input).shownAnswer = none
    ∧ (runMain x s input).shownQueryError = none
    ∧ (runMain x s input).state.chat_history = s.chat_history := by
  refine ⟨?_, ?_, ?_, ?_, ?_⟩ <;> simp [runMain, hNoEng, hfail]

/-- Witness for C7: a failing embedding-client constructor aborts
initialization and surfaces as the system-level error. -/
theorem claim_C7_witness :
    (runMain extInitFail ⟨[], none⟩ (some "hi")).state.query_engine = none
    ∧ (runMain extInitFail ⟨[], none⟩ (some "hi")).shownSystemError
      = some ("System Error: " ++ "no embed") :=
  ⟨(claim_C7 extInitFail ⟨[], none⟩ (some "hi") "no embed" rfl rfl).1,
   (claim_C7 extInitFail ⟨[], none⟩ (some "hi") "no embed" rfl rfl).2.1⟩

/-- Appending a user/assistant pair at the back preserves `wellPaired`. -/
theorem wellPaired_append_pair (hist : List ChatTurn) (q t : String)
    (h : wellPaired hist = true) :
    wellPaired (hist ++ [⟨"user", q⟩, ⟨"assistant", t⟩]) = true := by
  induction hist using wellPaired.induct with
  | case1 => simp [wellPaired]
  | case2 t1 => simp [wellPaired] at h
  | case3 t1 t2 rest ih =>
    simp only [wellPaired, Bool.and_eq_true] at h
    simp only [List.cons_append, wellPaired, Bool.and_eq_true]
    exact ⟨⟨h.1.1, h.1.2⟩, ih h.2⟩

/-- One rerun of `main` preserves the pairing shape of the history. -/
theorem wellPaired_runMain (x : Ext) (s : SessionState)
    (input : Option String) (h : wellPaired s.chat_history = true) :
    wellPaired (runMain x s input).state.chat_history = true := by
  have hchat : ∀ (eng : QueryEngine),
      wellPaired (runChat x eng s.chat_history input).state.chat_history
        = true := by
    intro eng
    match input with
    | none => simpa [runChat] using h
    | some q =>
      by_cases hq : q = ""
      · simpa [runChat, hq] using h
      · cases hr : x.queryResult eng q with
        | ok resp =>
          simpa [runChat, hq, hr] using
            wellPaired_append_pair s.chat_history q (get_response_text resp) h
        | error e => simpa [runChat, hq, hr] using h
  match hE : s.query_engine with
  | some eng => simpa [runMain, hE] using hchat eng
  | none =>
    match hinit : initialize_chatbot x with
    | Except.error e => simpa [runMain, hE, hinit] using h
    | Except.ok index =>
      simpa [runMain, hE, hinit] using hchat (create_query_engine index)

/-- Every reachable session history is a sequence of complete pairs. -/
theorem wellPaired_runSession (x : Ext) (inputs : List (Option String)) :
    wellPaired (runSession x inputs).chat_history = true := by
  suffices hgen : ∀ (s : SessionState), wellPaired s.chat_history = true →
      wellPaired ((inputs.foldl (fun s i => (runMain x s i).state) s)).chat_history
        = true by
    exact hgen ⟨[], none⟩ (by simp [wellPaired])
  induction inputs with
  | nil => intro s hs; simpa using hs
  | cons i rest ih =>
    intro s hs
    simpa using ih (runMain x s i).state (wellPaired_runMain x s i hs)

/-- A well-paired history has even length. -/
theorem wellPaired_length_even (hist : List ChatTurn)
    (h : wellPaired hist = true) : hist.length % 2 = 0 := by
  induction hist using wellPaired.induct with
  | case1 => simp
  | case2 t1 => simp [wellPaired] at h
  | case3 t1 t2 rest ih =>
    simp only [wellPaired, Bool.and_eq_true] at h
    have := ih h.2
    simp only [List.length_cons]
    omega

/-- A well-paired history matches the strict user/assistant role pattern
from any even starting position. -/
theorem wellPaired_rolesPattern (hist : List ChatTurn)
    (h : wellPaired hist = true) :
    ∀ i, i % 2 = 0 → rolesPattern i hist = true := by
  induction hist using wellPaired.induct with
  | case1 => intro i hi; simp [rolesPattern]
  | case2 t1 => simp [wellPaired] at h
  | case3 t1 t2 rest ih =>
    simp only [wellPaired, Bool.and_eq_true] at h
    intro i hi
    have hi1 : (i + 1) % 2 = 1 := by omega
    have hi2 : (i + 2) % 2 = 0 := by omega
    simp only [rolesPattern, Bool.and_eq_true, hi, hi1]
    refine ⟨?_, ?_, ?_⟩
    · simpa using h.1.1
    · simpa using h.1.2
    · exact ih h.2 (i + 2) hi2

/-- C9: chat-history pairing invariant — after any sequence of reruns from
the fresh session, the history has even length and its roles strictly
alternate user/assistant starting with user (so every entry's role is one
of the two). -/
theorem claim_C9 (x : Ext) (inputs : List (Option String)) :
    (runSession x inputs).chat_history.length % 2 = 0
    ∧ rolesPattern 0 (runSession x inputs).chat_history = true := by
  have h := wellPaired_runSession x inputs
  exact ⟨wellPaired_length_even _ h, wellPaired_rolesPattern _ h 0 (by simp)⟩

/-- For an arbitrary engine, every invocation's trace starts with the
validation event, and a successful invocation's trace is exactly the four
steps in order. -/
theorem answer_trace_shape (o : PipeOracle) (eng : QueryEngine)
    (q : String) (hq : q ≠ "") :
    (answer o eng q).1.head? = some (PipeEvent.validate q)
    ∧ (∀ a, (answer o eng q).2 = Except.ok a →
      ∃ prompt, (answer o eng q).1
        = [PipeEvent.validate q, PipeEvent.embed q,
           PipeEvent.search eng.similarity_top_k,
           PipeEvent.synthesize prompt]) := by
  cases he : o.embedR q with
  | error e => simp [answer, hq, he]
  | ok v =>
    cases hs : o.searchR v eng.similarity_top_k with
    | error e =>
      constructor
      · simp [answer, hq, he, hs]
      · intro a ha
        simp [answer, hq, he, hs] at ha
    | ok chunks =>
      cases hl : o.llmComplete (renderPrompt
          eng.text_qa_template.template (contextBlock chunks) q) with
      | error e =>
        constructor
        · simp [answer, hq, he, hs, hl]
        · intro a ha
          simp [answer, hq, he, hs, hl] at ha
      | ok t =>
        constructor
        · simp [answer, hq, he, hs, hl]
        · intro a ha
          exact ⟨renderPrompt eng.text_qa_template.template
            (contextBlock chunks) q, by simp [answer, hq, he, hs, hl]⟩

/-- C5: the pipeline performs its steps in the fixed order — the first
event of every invocation is the non-empty-query validation (so it
precedes any remote call), and a successful invocation's trace is exactly
validate, embed, search with `k = 7`, synthesize. -/
theorem claim_C5 (o : PipeOracle) (index : Index) (q : String)
    (hq : q ≠ "") :
    (answer o (create_query_engine index) q).1.head?
      = some (PipeEvent.validate q)
    ∧ (∀ a, (answer o (create_query_engine index) q).2 = Except.ok a →
      ∃ prompt, (answer o (create_query_engine index) q).1
        = [PipeEvent.validate q, PipeEvent.embed q, PipeEvent.search 7,
           PipeEvent.synthesize prompt]) :=
  answer_trace_shape o (create_query_engine index) q hq

/-- Witness for C5 at a concrete all-success oracle. -/
theorem claim_C5_witness :
    ∃ prompt, (answer oW (create_query_engine idxW) "hi").1
      = [PipeEvent.validate "hi", PipeEvent.embed "hi", PipeEvent.search 7,
         PipeEvent.synthesize prompt] :=
  (claim_C5 oW idxW "hi" (by decide)).2 ⟨"ans"⟩ rfl

set_option maxRecDepth 4096 in
/-- C6: answer synthesis uses one fixed, compile-time prompt template — the
engine's template is the constant `DEFAULT_TEXT_QA_PROMPT_TMPL` for every
index, that constant contains both placeholders and the
context-only instruction wording, and every synthesize event's prompt is
that template with some context block and the query substituted in. -/
theorem claim_C6 (index : Index) :
    (create_query_engine index).text_qa_template.template
      = DEFAULT_TEXT_QA_PROMPT_TMPL
    ∧ hasSub DEFAULT_TEXT_QA_PROMPT_TMPL "{context_str}" = true
    ∧ hasSub DEFAULT_TEXT_QA_PROMPT_TMPL "{query_str}" = true
    ∧ hasSub DEFAULT_TEXT_QA_PROMPT_TMPL
        "Given the context information and not prior knowledge" = true
    ∧ hasSub DEFAULT_TEXT_QA_PROMPT_TMPL
        "Only answer questions that you can answer based on the context"
        = true
    ∧ (∀ (o : PipeOracle) (q prompt : String),
        PipeEvent.synthesize prompt ∈ (answer o (create_query_engine index) q).1 →
        ∃ ctx, prompt = renderPrompt DEFAULT_TEXT_QA_PROMPT_TMPL ctx q) := by
  refine ⟨rfl, by decide, by decide, by decide, by decide, ?_⟩
  intro o q prompt hmem
  by_cases hq : q = ""
  · simp [answer, hq] at hmem
  · cases he : o.embedR q with
    | error e => simp [answer, hq, he] at hmem
    | ok v =>
      cases hs : o.searchR v (create_query_engine index).similarity_top_k with
      | error e => simp [answer, hq, he, hs] at hmem
      | ok chunks =>
        cases hl : o.llmComplete (renderPrompt
            (create_query_engine index).text_qa_template.template
            (contextBlock chunks) q) with
        | error e =>
          simp [answer, hq, he, hs, hl] at hmem
          exact ⟨contextBlock chunks, hmem⟩
        | ok t =>
          simp [answer, hq, he, hs, hl] at hmem
          exact ⟨contextBlock chunks, hmem⟩

/-- Witness for C6: the synthesize event of a concrete successful
invocation carries the rendered fixed template. -/
theorem claim_C6_witness :
    ∃ ctx, renderPrompt DEFAULT_TEXT_QA_PROMPT_TMPL (contextBlock []) "hi"
      = renderPrompt DEFAULT_TEXT_QA_PROMPT_TMPL ctx "hi" :=
  (claim_C6 idxW).2.2.2.2.2 oW "hi"
    (renderPrompt DEFAULT_TEXT_QA_PROMPT_TMPL (contextBlock []) "hi")
    (by simp [answer, oW, create_query_engine, DEFAULT_TEXT_QA_PROMPT])

end UserApp

